import Mathlib

/-!
Shallow embedding of the tutorial notebook
`tutorials/lunar_lander/lunar_lander.ipynb` of the Pearl repository.

The repository is a single notebook of glue code: it constructs agents from
the external Pearl library, runs the library's `online_learning` training
loop once per experiment, and saves/plots the returned episodic-return
series.  The embedding models the notebook as the ordered list of its code
cells, each a list of the statements relevant to the verified properties:
`env_str` assignments, `GymEnvironment(env_str)` constructions, `env.close()`
calls, `os.makedirs(env_str, exist_ok=...)` calls, agent constructions
(policy learner kind paired with a replay buffer kind and capacity),
`online_learning(...)` invocations with their keyword arguments,
`torch.save(info[key], os.path.join(env_str, file))` calls and
`plt.plot(..., info[key], ...)` calls.  Statements of the notebook with no
bearing on any verified property (package installation, version printing,
metadata printing, network/hyperparameter construction inside the agent
cells) are elided; the cells that consist only of such statements appear as
empty lists so the cell sequence matches the notebook.
-/

namespace Pearl

/-- Kinds of policy learners constructed in the notebook. -/
inductive Learner where
  | doubleDQN
  | ppo
  | continuousPPO
  deriving DecidableEq

/-- Replay buffers constructed in the notebook, with their capacity argument. -/
inductive Buffer where
  | fifoOffPolicy (capacity : Nat)
  | onPolicy (capacity : Nat)
  deriving DecidableEq

/-- Values of keyword arguments passed to `online_learning`: numeric literals,
boolean literals, or references to variables in scope (the agent variable and
the environment variable). -/
inductive ArgVal where
  | nat (n : Nat)
  | bool (b : Bool)
  | var (v : String)
  deriving DecidableEq

/-- One keyword argument of a call, in source order. -/
structure KwArg where
  key : String
  val : ArgVal
  deriving DecidableEq

/-- Statements of the notebook relevant to the verified properties. -/
inductive Stmt where
  | setSeed (n : Nat)
  | setEnvStr (s : String)
  | gymEnvironment
  | envClose
  | makedirs (existOk : Bool)
  | mkAgent (v : String) (learner : Learner) (buffer : Buffer)
  | onlineLearningCall (resultVar : String) (args : List KwArg)
  | torchSave (v : String) (field : String) (file : String)
  | pltPlot (v : String) (field : String)
  deriving DecidableEq

/-- Keyword arguments of the `online_learning` call of the CartPole-v1
Double DQN experiment (cell 14), in source order. -/
def cartPoleDqnArgs : List KwArg :=
  [⟨"agent", .var "double_dqn_agent"⟩,
   ⟨"env", .var "env"⟩,
   ⟨"number_of_episodes", .nat 750⟩,
   ⟨"print_every_x_episodes", .nat 25⟩,
   ⟨"record_period", .nat 25⟩,
   ⟨"learn_after_episode", .bool true⟩,
   ⟨"seed", .nat 0⟩]

/-- Keyword arguments of the `online_learning` call of the CartPole-v1 PPO
experiment (cell 17), in source order. -/
def cartPolePpoArgs : List KwArg :=
  [⟨"agent", .var "ppo_agent"⟩,
   ⟨"env", .var "env"⟩,
   ⟨"number_of_episodes", .nat 750⟩,
   ⟨"print_every_x_episodes", .nat 25⟩,
   ⟨"record_period", .nat 25⟩,
   ⟨"learn_after_episode", .bool true⟩,
   ⟨"seed", .nat 0⟩]

/-- Keyword arguments of the `online_learning` call of the LunarLander-v2
Double DQN experiment (cell 22), in source order. -/
def lunarDqnArgs : List KwArg :=
  [⟨"agent", .var "double_dqn_agent"⟩,
   ⟨"env", .var "env"⟩,
   ⟨"number_of_episodes", .nat 10000⟩,
   ⟨"print_every_x_episodes", .nat 100⟩,
   ⟨"learn_after_episode", .bool true⟩,
   ⟨"record_period", .nat 100⟩,
   ⟨"seed", .nat 0⟩]

/-- Keyword arguments of the `online_learning` call of the LunarLander-v2 PPO
experiment (cell 25), in source order. -/
def lunarPpoArgs : List KwArg :=
  [⟨"agent", .var "ppo_agent"⟩,
   ⟨"env", .var "env"⟩,
   ⟨"number_of_episodes", .nat 10000⟩,
   ⟨"print_every_x_episodes", .nat 100⟩,
   ⟨"learn_every_k_steps", .nat 2048⟩,
   ⟨"record_period", .nat 100⟩,
   ⟨"learn_after_episode", .bool false⟩,
   ⟨"seed", .nat 0⟩]

/-- Keyword arguments of the `online_learning` call of the
LunarLanderContinuous-v2 continuous PPO experiment (cell 29), in source
order. -/
def lunarContinuousPpoArgs : List KwArg :=
  [⟨"agent", .var "ppo_agent"⟩,
   ⟨"env", .var "env"⟩,
   ⟨"number_of_episodes", .nat 10000⟩,
   ⟨"print_every_x_episodes", .nat 100⟩,
   ⟨"learn_every_k_steps", .nat 2048⟩,
   ⟨"record_period", .nat 100⟩,
   ⟨"learn_after_episode", .bool false⟩,
   ⟨"seed", .nat 0⟩]

/-- Cell 1: load autoreload extension (no modelled statements). -/
def cell01 : List Stmt := []

/-- Cell 3: clone the Pearl repository (no modelled statements). -/
def cell03 : List Stmt := []

/-- Cell 4: pip install Pearl (no modelled statements). -/
def cell04 : List Stmt := []

/-- Cell 5: pip install swig (no modelled statements). -/
def cell05 : List Stmt := []

/-- Cell 7: pip install gymnasium box2d (no modelled statements). -/
def cell07 : List Stmt := []

/-- Cell 9: imports followed by `set_seed(0)`. -/
def cell09 : List Stmt := [.setSeed 0]

/-- Cell 10: version printing (no modelled statements). -/
def cell10 : List Stmt := []

/-- Cell 12: `env_str = "CartPole-v1"`, construct a `GymEnvironment`, print
metadata, `env.close()`, `os.makedirs(env_str, exist_ok=True)`. -/
def cell12 : List Stmt :=
  [.setEnvStr "CartPole-v1", .gymEnvironment, .envClose, .makedirs true]

/-- Cell 14: CartPole-v1 Double DQN experiment: construct the environment,
build the agent with a `FIFOOffPolicyReplayBuffer(10_000)`, run
`online_learning`, close the environment. -/
def cell14 : List Stmt :=
  [.gymEnvironment,
   .mkAgent "double_dqn_agent" .doubleDQN (.fifoOffPolicy 10000),
   .onlineLearningCall "info_double_dqn" cartPoleDqnArgs,
   .envClose]

/-- Cell 15: save `info_double_dqn["return"]` under the `env_str` directory,
then plot it. -/
def cell15 : List Stmt :=
  [.torchSave "info_double_dqn" "return" "info_double_dqn_return.pt",
   .pltPlot "info_double_dqn" "return"]

/-- Cell 17: CartPole-v1 PPO experiment: construct the environment, build the
agent with an `OnPolicyReplayBuffer(250_000)`, run `online_learning`, close
the environment. -/
def cell17 : List Stmt :=
  [.gymEnvironment,
   .mkAgent "ppo_agent" .ppo (.onPolicy 250000),
   .onlineLearningCall "info_ppo" cartPolePpoArgs,
   .envClose]

/-- Cell 18: save `info_ppo["return"]` under the `env_str` directory, then
plot it. -/
def cell18 : List Stmt :=
  [.torchSave "info_ppo" "return" "info_ppo_return.pt",
   .pltPlot "info_ppo" "return"]

/-- Cell 20: `env_str = "LunarLander-v2"`, `os.makedirs(env_str,
exist_ok=True)`, construct a `GymEnvironment`, print metadata, `env.close()`,
`os.makedirs(env_str, exist_ok=True)` again. -/
def cell20 : List Stmt :=
  [.setEnvStr "LunarLander-v2", .makedirs true, .gymEnvironment, .envClose,
   .makedirs true]

/-- Cell 22: LunarLander-v2 Double DQN experiment: construct the environment,
build the agent with a `FIFOOffPolicyReplayBuffer(1_000_000)`, run
`online_learning`, close the environment. -/
def cell22 : List Stmt :=
  [.gymEnvironment,
   .mkAgent "double_dqn_agent" .doubleDQN (.fifoOffPolicy 1000000),
   .onlineLearningCall "info_double_dqn" lunarDqnArgs,
   .envClose]

/-- Cell 23: save `info_double_dqn["return"]` under the `env_str` directory,
then plot it. -/
def cell23 : List Stmt :=
  [.torchSave "info_double_dqn" "return" "info_double_dqn_return.pt",
   .pltPlot "info_double_dqn" "return"]

/-- Cell 25: LunarLander-v2 PPO experiment: construct the environment, build
the agent with an `OnPolicyReplayBuffer(250_000)`, run `online_learning`,
close the environment. -/
def cell25 : List Stmt :=
  [.gymEnvironment,
   .mkAgent "ppo_agent" .ppo (.onPolicy 250000),
   .onlineLearningCall "info_ppo" lunarPpoArgs,
   .envClose]

/-- Cell 26: save `info_ppo["return"]` under the `env_str` directory, then
plot it. -/
def cell26 : List Stmt :=
  [.torchSave "info_ppo" "return" "info_ppo_return.pt",
   .pltPlot "info_ppo" "return"]

/-- Cell 28: `env_str = "LunarLanderContinuous-v2"`, construct a
`GymEnvironment`, print metadata, `env.close()`, `os.makedirs(env_str,
exist_ok=True)`. -/
def cell28 : List Stmt :=
  [.setEnvStr "LunarLanderContinuous-v2", .gymEnvironment, .envClose,
   .makedirs true]

/-- Cell 29: LunarLanderContinuous-v2 continuous PPO experiment: construct
the environment, build the agent with an `OnPolicyReplayBuffer(250_000)`,
run `online_learning`, close the environment. -/
def cell29 : List Stmt :=
  [.gymEnvironment,
   .mkAgent "ppo_agent" .continuousPPO (.onPolicy 250000),
   .onlineLearningCall "info_ppo" lunarContinuousPpoArgs,
   .envClose]

/-- Cell 30: save `info_ppo["return"]` under the `env_str` directory, then
plot it. -/
def cell30 : List Stmt :=
  [.torchSave "info_ppo" "return" "info_ppo_return.pt",
   .pltPlot "info_ppo" "return"]

/-- The notebook as the ordered sequence of its code cells. -/
def notebookCells : List (List Stmt) :=
  [cell01, cell03, cell04, cell05, cell07, cell09, cell10, cell12, cell14,
   cell15, cell17, cell18, cell20, cell22, cell23, cell25, cell26, cell28,
   cell29, cell30]

/-- The notebook's statements in execution order. -/
def notebook : List Stmt := notebookCells.flatten

/-- Look up a keyword argument by name, first occurrence wins (Python rejects
duplicate keyword arguments, and none occur in the notebook). -/
def lookupArg : List KwArg → String → Option ArgVal
  | [], _ => none
  | a :: rest, n => if a.key == n then some a.val else lookupArg rest n

/-- Whether a keyword argument with the given name is passed. -/
def hasArg (args : List KwArg) (n : String) : Bool :=
  (lookupArg args n).isSome

/-- The `online_learning` calls of a statement sequence, in order: result
variable and keyword-argument list. -/
def callsOf : List Stmt → List (String × List KwArg)
  | [] => []
  | .onlineLearningCall v args :: rest => (v, args) :: callsOf rest
  | _ :: rest => callsOf rest

/-- The `torch.save` statements of a statement sequence, in order: saved
variable and subscript. -/
def savesOf : List Stmt → List (String × String)
  | [] => []
  | .torchSave v f _ :: rest => (v, f) :: savesOf rest
  | _ :: rest => savesOf rest

/-- The `plt.plot` statements of a statement sequence, in order: plotted
variable and subscript. -/
def plotsOf : List Stmt → List (String × String)
  | [] => []
  | .pltPlot v f :: rest => (v, f) :: plotsOf rest
  | _ :: rest => plotsOf rest

/-- An agent construction together with the value the `env_str` variable
holds at that point of the notebook. -/
structure AgentSpec where
  envName : String
  varName : String
  learner : Learner
  buffer : Buffer
  deriving DecidableEq

/-- The agent constructions of a statement sequence, tracking the current
value of `env_str` (second argument). -/
def agentsWithEnv : List Stmt → String → List AgentSpec
  | [], _ => []
  | .setEnvStr s :: rest, _ => agentsWithEnv rest s
  | .mkAgent v l b :: rest, e => ⟨e, v, l, b⟩ :: agentsWithEnv rest e
  | _ :: rest, e => agentsWithEnv rest e

/-- The agents the notebook constructs, each with the environment identifier
of its section. -/
def notebookAgents : List AgentSpec := agentsWithEnv notebook ""

/-- The `GymEnvironment(env_str)` constructions of a statement sequence,
resolved to the current value of `env_str`. -/
def gymConstructions : List Stmt → String → List String
  | [], _ => []
  | .setEnvStr s :: rest, _ => gymConstructions rest s
  | .gymEnvironment :: rest, e => e :: gymConstructions rest e
  | _ :: rest, e => gymConstructions rest e

/-- Look up a variable binding, most recent binding first. -/
def lookupVar : List (String × Nat) → String → Option Nat
  | [], _ => none
  | (v, i) :: rest, w => if v == w then some i else lookupVar rest w

/-- The identity of the agent each `online_learning` call trains.  Agent
constructions allocate fresh identities (numbered from the third argument)
and rebind their variable name (bindings in the second argument), so two
constructions assigned to the same Python variable are distinct agents, and
a call trains the agent its `agent=` keyword currently refers to. -/
def trainedAgentIds : List Stmt → List (String × Nat) → Nat → List (Option Nat)
  | [], _, _ => []
  | .mkAgent v _ _ :: rest, bs, next => trainedAgentIds rest ((v, next) :: bs) (next + 1)
  | .onlineLearningCall _ args :: rest, bs, next =>
      (match lookupArg args "agent" with
       | some (.var v) => lookupVar bs v
       | _ => none) :: trainedAgentIds rest bs next
  | _ :: rest, bs, next => trainedAgentIds rest bs next

/-- Environment lifecycle check: a `GymEnvironment` may only be constructed
while no environment is open, `env.close()` only while one is, and at the end
no environment remains open.  The second argument counts open environments. -/
def envBalanced : List Stmt → Nat → Bool
  | [], opened => opened == 0
  | .gymEnvironment :: rest, opened => opened == 0 && envBalanced rest (opened + 1)
  | .envClose :: rest, opened => opened != 0 && envBalanced rest (opened - 1)
  | _ :: rest, opened => envBalanced rest opened

/-- Directory-creation check: every `torch.save` targets
`os.path.join(env_str, file)`, so it requires that a
`os.makedirs(env_str, exist_ok=True)` for the current `env_str` (second
argument) has already executed (accumulated in the third argument). -/
def savesGuarded : List Stmt → String → List String → Bool
  | [], _, _ => true
  | .setEnvStr s :: rest, _, made => savesGuarded rest s made
  | .makedirs ok :: rest, d, made =>
      savesGuarded rest d (if ok then d :: made else made)
  | .torchSave _ _ _ :: rest, d, made => made.contains d && savesGuarded rest d made
  | _ :: rest, d, made => savesGuarded rest d made

/-- Whether every `os.makedirs` call passes `exist_ok=True`. -/
def allMakedirsExistOk (stmts : List Stmt) : Bool :=
  stmts.all fun s =>
    match s with
    | .makedirs ok => ok
    | _ => true

/-- Seed check: `set_seed(0)` must have executed (second argument) before any
agent construction and before any `online_learning` call, and every
`online_learning` call must pass `seed=0`. -/
def seedDiscipline : List Stmt → Bool → Bool
  | [], _ => true
  | .setSeed n :: rest, seeded => seedDiscipline rest (seeded || n == 0)
  | .mkAgent _ _ _ :: rest, seeded => seeded && seedDiscipline rest seeded
  | .onlineLearningCall _ args :: rest, seeded =>
      seeded && lookupArg args "seed" == some (.nat 0) && seedDiscipline rest seeded
  | _ :: rest, seeded => seedDiscipline rest seeded

/-- Ordering check within one cell: every `plt.plot` of `v[field]` must be
preceded, in the same cell, by a `torch.save` of the same `v[field]`
(accumulated in the second argument). -/
def plotAfterSave : List Stmt → List (String × String) → Bool
  | [], _ => true
  | .torchSave v f _ :: rest, seen => plotAfterSave rest ((v, f) :: seen)
  | .pltPlot v f :: rest, seen => seen.contains (v, f) && plotAfterSave rest seen
  | _ :: rest, seen => plotAfterSave rest seen

/-- The `torch.save` statements resolved against the current `env_str`:
directory, saved variable, subscript, file name. -/
def resolvedSaves : List Stmt → String → List (String × String × String × String)
  | [], _ => []
  | .setEnvStr s :: rest, _ => resolvedSaves rest s
  | .torchSave v f file :: rest, d => (d, v, f, file) :: resolvedSaves rest d
  | _ :: rest, d => resolvedSaves rest d

/-- Per-cell pairing of each training call with its plotting cell: every
`online_learning` call's result variable is saved with subscript "return"
and plotted with subscript "return" in the immediately following cell. -/
def callsSavedPlotted : List (List Stmt) → Bool
  | [] => true
  | [c] => (callsOf c).isEmpty
  | c :: d :: rest =>
      (callsOf c).all
        (fun p => (savesOf d).contains (p.1, "return")
          && (plotsOf d).contains (p.1, "return"))
      && callsSavedPlotted (d :: rest)

/-- The configured episode budget of an `online_learning` call: the value of
its `number_of_episodes` keyword argument. -/
def episodeBudget (args : List KwArg) : Nat :=
  match lookupArg args "number_of_episodes" with
  | some (.nat n) => n
  | _ => 0

/-- Modelled from the spec: the training driver `online_learning` belongs to
the external Pearl library and its code is not part of this repository.  The
spec describes the `"return"` entry of its result as "an ordered sequence of
scalar floating-point values, one per completed episode", so the model
produces one entry per episode of the configured `number_of_episodes`
budget.  The numerical values are irrelevant to every verified property and
are modelled as zeros. -/
def onlineLearningReturnSeries (args : List KwArg) : List Int :=
  List.replicate (episodeBudget args) 0

/-- Modelled from the spec: the result of `online_learning` is "a record
containing at least an episodic-return sequence", keyed `"return"` in the
notebook.  The model maps the key `"return"` to the episodic-return series
and is silent on other keys. -/
def onlineLearningResult (args : List KwArg) (k : String) : Option (List Int) :=
  if k == "return" then some (onlineLearningReturnSeries args) else none

/-- Claim C1: for every one of the notebook's five experiments, the
episodic-return series (modelled from the spec, one scalar per completed
episode) has length equal to the `number_of_episodes` argument of the
experiment's `online_learning` call: 750 for the two CartPole-v1 experiments
and 10,000 for the three LunarLander experiments; and each experiment's
result variable is the one saved with `torch.save` and plotted with
subscript "return". -/
theorem return_series_length_matches_episode_budget :
    (callsOf notebook).map
        (fun c => (onlineLearningReturnSeries c.2).length)
      = [750, 750, 10000, 10000, 10000]
    ∧ (callsOf notebook).map (fun c => episodeBudget c.2)
      = [750, 750, 10000, 10000, 10000]
    ∧ callsSavedPlotted notebookCells = true := by
  refine ⟨?_, by decide, by decide⟩
  simp only [onlineLearningReturnSeries, List.length_replicate]
  decide

/-- Claim C2: the replay buffer of the LunarLander-v2 Double DQN experiment
is a FIFO off-policy buffer of capacity exactly 1,000,000: filtering the
notebook's agent constructions to the LunarLander-v2 section and the
DoubleDQN learner leaves exactly that one agent, whose buffer is
`FIFOOffPolicyReplayBuffer(1_000_000)`. -/
theorem lunar_lander_double_dqn_buffer_capacity :
    notebookAgents.filter
        (fun a => a.envName == "LunarLander-v2" && a.learner == Learner.doubleDQN)
      = [⟨"LunarLander-v2", "double_dqn_agent", Learner.doubleDQN,
          Buffer.fifoOffPolicy 1000000⟩] := by
  decide

/-- Claim C3: the notebook makes exactly five `online_learning` calls, each
training a distinct agent (the five constructed agents, numbered 0 to 4 in
construction order, are each trained exactly once, the variable bindings in
force at each call resolving to fresh agent objects), and no cell contains
more than one `online_learning` call. -/
theorem one_training_call_per_agent :
    trainedAgentIds notebook [] 0 = [some 0, some 1, some 2, some 3, some 4]
    ∧ notebookAgents.length = 5
    ∧ (notebookCells.map (fun c => (callsOf c).length)).all
        (fun n => n == 0 || n == 1) = true
    ∧ (notebookCells.map (fun c => (callsOf c).length)).sum = 5 := by
  refine ⟨by decide, by decide, by decide, by decide⟩

/-- Claim C4: every `online_learning` call passes the keyword arguments
`agent`, `env`, `number_of_episodes`, `print_every_x_episodes` and
`learn_after_episode`; its result (modelled from the spec) is a record whose
"return" key holds the episodic-return series; and each call's result
variable is then saved and plotted with subscript "return" in the following
cell. -/
theorem training_call_arguments_and_result :
    (callsOf notebook).all
        (fun c => hasArg c.2 "agent" && hasArg c.2 "env"
          && hasArg c.2 "number_of_episodes"
          && hasArg c.2 "print_every_x_episodes"
          && hasArg c.2 "learn_after_episode") = true
    ∧ (callsOf notebook).all
        (fun c => onlineLearningResult c.2 "return"
          == some (onlineLearningReturnSeries c.2)) = true
    ∧ callsSavedPlotted notebookCells = true
    ∧ (callsOf notebook).length = 5 := by
  refine ⟨by decide, ?_, by decide, by decide⟩
  simp [onlineLearningResult]

/-- Claim C5: in every plotting cell the returns series is first persisted
with `torch.save` to a file under the directory named by the current
`env_str` and only then rendered with `plt.plot`: in every cell each plot of
`v["return"]` is preceded by a save of `v["return"]`, and the five saves
resolve to the expected directories and file names, matching the five
plots. -/
theorem save_precedes_plot :
    notebookCells.all (fun c => plotAfterSave c []) = true
    ∧ resolvedSaves notebook ""
      = [("CartPole-v1", "info_double_dqn", "return", "info_double_dqn_return.pt"),
         ("CartPole-v1", "info_ppo", "return", "info_ppo_return.pt"),
         ("LunarLander-v2", "info_double_dqn", "return", "info_double_dqn_return.pt"),
         ("LunarLander-v2", "info_ppo", "return", "info_ppo_return.pt"),
         ("LunarLanderContinuous-v2", "info_ppo", "return", "info_ppo_return.pt")]
    ∧ plotsOf notebook
      = [("info_double_dqn", "return"), ("info_ppo", "return"),
         ("info_double_dqn", "return"), ("info_ppo", "return"),
         ("info_ppo", "return")] := by
  refine ⟨by decide, by decide, by decide⟩

/-- Claim C6: every `GymEnvironment` the notebook constructs is closed with
`env.close()` before any subsequent `GymEnvironment` construction, at most
one environment is open at any point of the cell sequence, and no
constructed environment is left unclosed at the end; the notebook makes
eight constructions in total. -/
theorem environment_lifecycle_balanced :
    envBalanced notebook 0 = true
    ∧ (gymConstructions notebook "").length = 8 := by
  refine ⟨by decide, by decide⟩

/-- Claim C7: every agent construction pairs DoubleDQN with a
`FIFOOffPolicyReplayBuffer` and pairs ProximalPolicyOptimization and
ContinuousProximalPolicyOptimization with an `OnPolicyReplayBuffer`; there
are five agents and no other learner/buffer pairing occurs. -/
theorem learner_buffer_pairing :
    notebookAgents.map (fun a => (a.learner, a.buffer))
      = [(Learner.doubleDQN, Buffer.fifoOffPolicy 10000),
         (Learner.ppo, Buffer.onPolicy 250000),
         (Learner.doubleDQN, Buffer.fifoOffPolicy 1000000),
         (Learner.ppo, Buffer.onPolicy 250000),
         (Learner.continuousPPO, Buffer.onPolicy 250000)] := by
  decide

/-- Claim C8: the experiments use exactly the three learners DoubleDQN,
ProximalPolicyOptimization and ContinuousProximalPolicyOptimization against
exactly the environments CartPole-v1, LunarLander-v2 and
LunarLanderContinuous-v2, with the continuous PPO learner used only with the
continuous-action environment; and every `GymEnvironment` construction uses
one of those three identifiers. -/
theorem learners_and_environments :
    notebookAgents.map (fun a => (a.envName, a.learner))
      = [("CartPole-v1", Learner.doubleDQN),
         ("CartPole-v1", Learner.ppo),
         ("LunarLander-v2", Learner.doubleDQN),
         ("LunarLander-v2", Learner.ppo),
         ("LunarLanderContinuous-v2", Learner.continuousPPO)]
    ∧ gymConstructions notebook ""
      = ["CartPole-v1", "CartPole-v1", "CartPole-v1",
         "LunarLander-v2", "LunarLander-v2", "LunarLander-v2",
         "LunarLanderContinuous-v2", "LunarLanderContinuous-v2"] := by
  refine ⟨by decide, by decide⟩

/-- Claim C9: `set_seed(0)` executes before any agent construction or
training call, and every `online_learning` call passes `seed=0`; moreover the
five calls' keyword-argument lists are the fixed literal lists below, so two
runs of the notebook hand the external library identical inputs (and a
deterministic library then returns identical episodic-return series). -/
theorem seeding_is_deterministic :
    seedDiscipline notebook false = true
    ∧ (callsOf notebook).map (fun c => c.2)
      = [cartPoleDqnArgs, cartPolePpoArgs, lunarDqnArgs, lunarPpoArgs,
         lunarContinuousPpoArgs] := by
  refine ⟨by decide, by decide⟩

/-- Claim C10: before every `torch.save` to `os.path.join(env_str, ...)`,
an `os.makedirs(env_str, exist_ok=True)` for the then-current `env_str` has
already executed earlier in the notebook, and every `os.makedirs` call in
the notebook passes `exist_ok=True`, so re-running does not fail on a
pre-existing directory. -/
theorem save_directories_created_first :
    savesGuarded notebook "" [] = true
    ∧ allMakedirsExistOk notebook = true := by
  refine ⟨by decide, by decide⟩

end Pearl
